import Mathlib

/-!
# Verification of the sentiment-analysis client subsystem

A shallow embedding of the browser-side sentiment-analysis client:
the debounced live-inference pipeline, the dual-transport prediction
client, the Next.js API proxy routes with their response normalization,
the bounded history store and the rolling statistics aggregator.

Each definition is translated from one source location, named in its
doc comment.  JavaScript dynamic values are modelled by `Json`
(a parsed JSON value) and `JsVal` (`Option Json`, where `none` plays
the role of `undefined`); JavaScript truthiness, the `||` operator,
plain property access (which throws a `TypeError` on `null` and
`undefined` bases) and optional chaining `?.` are modelled explicitly.
-/

/-- A parsed JSON value, as produced by `response.json()` /
`JSON.parse`.  Numbers are modelled as rationals (all numeric values
appearing in the client are exact). -/
inductive Json : Type where
  | null : Json
  | bool : Bool → Json
  | num : ℚ → Json
  | str : String → Json
  | arr : List Json → Json
  | obj : List (String × Json) → Json
deriving Repr

/-- A JavaScript value in an expression position: either a JSON value
or `undefined` (modelled as `none`). -/
abbrev JsVal := Option Json

/-- Decidable equality of JSON values (the automatic derivation does
not handle the nesting through `List`). -/
def Json.beq : Json → Json → Bool
  | .null, .null => true
  | .bool a, .bool b => a == b
  | .num a, .num b => a == b
  | .str a, .str b => a == b
  | .arr a, .arr b => beqList a b
  | .obj a, .obj b => beqObj a b
  | _, _ => false
where
  beqList : List Json → List Json → Bool
    | [], [] => true
    | x :: xs, y :: ys => Json.beq x y && beqList xs ys
    | _, _ => false
  beqObj : List (String × Json) → List (String × Json) → Bool
    | [], [] => true
    | (k, v) :: xs, (l, w) :: ys => k == l && Json.beq v w && beqObj xs ys
    | _, _ => false

mutual

theorem Json.beq_eq : ∀ a b : Json, Json.beq a b = true → a = b
  | .null, .null, _ => rfl
  | .bool _, .bool _, h => by
      simp only [Json.beq] at h; exact congrArg Json.bool (eq_of_beq h)
  | .num _, .num _, h => by
      simp only [Json.beq] at h; exact congrArg Json.num (eq_of_beq h)
  | .str _, .str _, h => by
      simp only [Json.beq] at h; exact congrArg Json.str (eq_of_beq h)
  | .arr a, .arr b, h => by
      simp only [Json.beq] at h
      exact congrArg Json.arr (Json.beqList_eq a b h)
  | .obj a, .obj b, h => by
      simp only [Json.beq] at h
      exact congrArg Json.obj (Json.beqObj_eq a b h)

theorem Json.beqList_eq : ∀ a b : List Json, Json.beq.beqList a b = true → a = b
  | [], [], _ => rfl
  | x :: xs, y :: ys, h => by
      simp only [Json.beq.beqList, Bool.and_eq_true] at h
      have h1 := Json.beq_eq x y h.1
      have h2 := Json.beqList_eq xs ys h.2
      rw [h1, h2]

theorem Json.beqObj_eq :
    ∀ a b : List (String × Json), Json.beq.beqObj a b = true → a = b
  | [], [], _ => rfl
  | (k, v) :: xs, (l, w) :: ys, h => by
      simp only [Json.beq.beqObj, Bool.and_eq_true] at h
      have h1 := Json.beq_eq v w h.1.2
      have h2 := Json.beqObj_eq xs ys h.2
      have h3 : k = l := by
        have := h.1.1
        simpa using this
      rw [h1, h2, h3]

end

mutual

theorem Json.beq_refl : ∀ a : Json, Json.beq a a = true
  | .null => rfl
  | .bool b => by simp [Json.beq]
  | .num q => by simp [Json.beq]
  | .str s => by simp [Json.beq]
  | .arr l => by simp only [Json.beq]; exact Json.beqList_refl l
  | .obj l => by simp only [Json.beq]; exact Json.beqObj_refl l

theorem Json.beqList_refl : ∀ l : List Json, Json.beq.beqList l l = true
  | [] => rfl
  | x :: xs => by
      simp only [Json.beq.beqList, Bool.and_eq_true]
      exact ⟨Json.beq_refl x, Json.beqList_refl xs⟩

theorem Json.beqObj_refl : ∀ l : List (String × Json), Json.beq.beqObj l l = true
  | [] => rfl
  | (k, v) :: xs => by
      simp only [Json.beq.beqObj, Bool.and_eq_true]
      exact ⟨⟨by simp, Json.beq_refl v⟩, Json.beqObj_refl xs⟩

end

instance : DecidableEq Json := fun a b =>
  if h : Json.beq a b = true then
    .isTrue (Json.beq_eq a b h)
  else
    .isFalse (fun hab => h (hab ▸ Json.beq_refl a))

instance {ε α : Type} [DecidableEq ε] [DecidableEq α] : DecidableEq (Except ε α) :=
  fun x y =>
    match x, y with
    | .ok a, .ok b =>
        if h : a = b then .isTrue (congrArg Except.ok h)
        else .isFalse (fun hh => h (Except.ok.inj hh))
    | .error a, .error b =>
        if h : a = b then .isTrue (congrArg Except.error h)
        else .isFalse (fun hh => h (Except.error.inj hh))
    | .ok _, .error _ => .isFalse (fun hh => Except.noConfusion hh)
    | .error _, .ok _ => .isFalse (fun hh => Except.noConfusion hh)

/-- JavaScript truthiness of a value: `undefined`, `null`, `false`,
`0`, and the empty string are falsy; every other value (including
empty arrays and empty objects) is truthy. -/
def jsTruthy : JsVal → Bool
  | none => false
  | some .null => false
  | some (.bool b) => b
  | some (.num q) => q ≠ 0
  | some (.str s) => s ≠ ""
  | some (.arr _) => true
  | some (.obj _) => true

/-- The JavaScript `||` operator on already-evaluated operands:
returns the left operand when it is truthy, the right one otherwise. -/
def jsOr (a b : JsVal) : JsVal := if jsTruthy a then a else b

/-- Field lookup in a JavaScript object literal. -/
def jsLookup (fields : List (String × Json)) (k : String) : JsVal :=
  (fields.find? (fun p => p.1 == k)).map (fun p => p.2)

/-- A thrown JavaScript exception (the only kind the modelled code can
raise during normalization is a `TypeError` from accessing a property
of `null`/`undefined` or calling a non-function). -/
inductive JsErr : Type where
  | typeError : JsErr
deriving DecidableEq, Repr

/-- Plain property access `base.k`: throws a `TypeError` when the base
is `null` or `undefined`; reads `undefined` from primitives, arrays
and objects lacking the field. -/
def propAccess (base : JsVal) (k : String) : Except JsErr JsVal :=
  match base with
  | none => .error .typeError
  | some .null => .error .typeError
  | some (.obj fields) => .ok (jsLookup fields k)
  | some _ => .ok none

/-- Optional-chained property access `base?.k`: yields `undefined`
when the base is `null`/`undefined`, otherwise behaves like plain
property access (which cannot throw on a non-null base). -/
def optChain (base : JsVal) (k : String) : JsVal :=
  match base with
  | none => none
  | some .null => none
  | some (.obj fields) => jsLookup fields k
  | some _ => none

/-- The normalized single-prediction response assembled by the
`/api/predict` route (`part_005`, `transformedResult`): every field
holds the JavaScript value the route put there. -/
structure TransResult : Type where
  text : String
  sentimentLabel : JsVal
  sentimentScore : JsVal
  confidence : JsVal
  processing_time : JsVal
  scores : JsVal
deriving DecidableEq, Repr

/-- `part_005` (route `/api/predict`), the `transformedResult` object:

```js
const transformedResult = {
  text: text,
  sentiment: {
    label: result.label || result.sentiment?.label || "UNKNOWN",
    score: result.score || result.sentiment?.score || 0,
  },
  confidence: result.confidence || result.score || 0,
  processing_time: result.processing_time || 0,
  scores: result.scores || {},
}
```

A `TypeError` is thrown exactly when `result` is `null` (the first
property access `result.label` throws); it is caught by the route's
`catch`, which responds with a 500 error instead of a normalized
result. -/
def transformedResult (text : String) (result : Json) : Except JsErr TransResult := do
  let flatLabel ← propAccess (some result) "label"
  let sentiment ← propAccess (some result) "sentiment"
  let flatScore ← propAccess (some result) "score"
  let flatConfidence ← propAccess (some result) "confidence"
  let flatTime ← propAccess (some result) "processing_time"
  let flatScores ← propAccess (some result) "scores"
  pure
    { text := text
      sentimentLabel := jsOr flatLabel (jsOr (optChain sentiment "label") (some (.str "UNKNOWN")))
      sentimentScore := jsOr flatScore (jsOr (optChain sentiment "score") (some (.num 0)))
      confidence := jsOr flatConfidence (jsOr flatScore (some (.num 0)))
      processing_time := jsOr flatTime (some (.num 0))
      scores := jsOr flatScores (some (.obj [])) }

/-- One element of the `transformedResults.results` array built by the
`/api/predict/batch` route (`part_003`). -/
structure TransBatchElem : Type where
  text : JsVal
  sentimentLabel : JsVal
  sentimentScore : JsVal
  confidence : JsVal
  processing_time : JsVal
  scores : JsVal
deriving DecidableEq, Repr

/-- `part_003` (route `/api/predict/batch`), the element transform
inside `result.results?.map((r, index) => ({...}))`. -/
def transformBatchElem (texts : List Json) (idx : Nat) (r : Json) :
    Except JsErr TransBatchElem := do
  let flatLabel ← propAccess (some r) "label"
  let sentiment ← propAccess (some r) "sentiment"
  let flatScore ← propAccess (some r) "score"
  let flatConfidence ← propAccess (some r) "confidence"
  let flatTime ← propAccess (some r) "processing_time"
  let flatScores ← propAccess (some r) "scores"
  pure
    { text := texts.get? idx
      sentimentLabel := jsOr flatLabel (jsOr (optChain sentiment "label") (some (.str "UNKNOWN")))
      sentimentScore := jsOr flatScore (jsOr (optChain sentiment "score") (some (.num 0)))
      confidence := jsOr flatConfidence (jsOr flatScore (some (.num 0)))
      processing_time := jsOr flatTime (some (.num 0))
      scores := jsOr flatScores (some (.obj [])) }

/-- The normalized batch response assembled by the
`/api/predict/batch` route (`part_003`, `transformedResults`). -/
structure TransBatchOut : Type where
  results : List TransBatchElem
  total_processing_time : JsVal
  average_processing_time : JsVal
deriving DecidableEq, Repr

/-- Mapping the element transform over the `results` array index by
index, propagating a thrown `TypeError` from any element. -/
def mapBatchElems (texts : List Json) (idx : Nat) :
    List Json → Except JsErr (List TransBatchElem)
  | [] => .ok []
  | r :: rest => do
      let e ← transformBatchElem texts idx r
      let es ← mapBatchElems texts (idx + 1) rest
      pure (e :: es)

/-- `part_003` (route `/api/predict/batch`), the `transformedResults`
object:

```js
const transformedResults = {
  results: result.results?.map((r, index) => ({ ... })) || [],
  total_processing_time: result.total_processing_time || 0,
  average_processing_time: result.average_processing_time || 0,
}
```

`result.results` throws on a `null` payload; `?.map` yields
`undefined` (defaulted to `[]` by `||`) when `results` is
`null`/`undefined`, maps when it is an array, and throws a
`TypeError` (`.map` is not a function) on any other value. -/
def transformedResults (texts : List Json) (result : Json) :
    Except JsErr TransBatchOut := do
  let rs ← propAccess (some result) "results"
  let elems ←
    match rs with
    | none => pure []
    | some .null => pure []
    | some (.arr l) => mapBatchElems texts 0 l
    | some _ => .error .typeError
  let flatTotal ← propAccess (some result) "total_processing_time"
  let flatAvg ← propAccess (some result) "average_processing_time"
  pure
    { results := elems
      total_processing_time := jsOr flatTotal (some (.num 0))
      average_processing_time := jsOr flatAvg (some (.num 0)) }

example :
    transformedResult "hi" (.obj [("label", .str "POSITIVE"), ("score", .num 93)]) =
      .ok { text := "hi", sentimentLabel := some (.str "POSITIVE"),
            sentimentScore := some (.num 93),
            confidence := some (.num 93),
            processing_time := some (.num 0),
            scores := some (.obj []) } := by decide

example :
    transformedResult "hi" (.obj [("sentiment", .obj [("label", .str "NEGATIVE")])]) =
      .ok { text := "hi", sentimentLabel := some (.str "NEGATIVE"),
            sentimentScore := some (.num 0),
            confidence := some (.num 0),
            processing_time := some (.num 0),
            scores := some (.obj []) } := by decide

example : transformedResult "hi" .null = .error .typeError := by decide

example : transformedResult "hi" (.obj []) =
    .ok { text := "hi", sentimentLabel := some (.str "UNKNOWN"),
          sentimentScore := some (.num 0),
          confidence := some (.num 0),
          processing_time := some (.num 0),
          scores := some (.obj []) } := by decide

/-! ## History store and statistics (`src/lib/store.ts`, `src/frontend/lib/store.ts`) -/

/-- A prediction result as held by the client store: the sentiment
label and its confidence score. -/
structure SentimentResult : Type where
  label : String
  score : ℚ
deriving DecidableEq, Repr

/-- `src/lib/store.ts`: the id generated for a history entry,
`Date.now().toString()` — the bare millisecond timestamp rendered as a
string, with no random component. -/
def historyItemId (now : Nat) : String := toString now

/-- `src/lib/store.ts`, `AnalysisHistoryItem`; `timestamp` is the
millisecond clock value `Date.now()` at insertion. -/
structure AnalysisHistoryItem : Type where
  id : String
  text : String
  result : SentimentResult
  timestamp : Nat
deriving DecidableEq, Repr

/-- `src/lib/store.ts`, `addToHistory`:

```js
const historyItem = { id: Date.now().toString(), text, result, timestamp: new Date() }
set((state) => ({ history: [historyItem, ...state.history.slice(0, 99)] }))
```

The new entry is prepended and only the first 99 old entries are kept. -/
def addToHistory (now : Nat) (text : String) (result : SentimentResult)
    (history : List AnalysisHistoryItem) : List AnalysisHistoryItem :=
  { id := historyItemId now, text := text, result := result, timestamp := now } ::
    history.take 99

/-- `src/frontend/lib/store.ts`, `addToHistory` (the variant store):

```js
addToHistory: (text, result) =>
  set((state) => ({ history: [...state.history, { text, result }] }))
```

The entry is appended at the tail and nothing is ever evicted. -/
def frontendAddToHistory (text : String) (result : SentimentResult)
    (history : List (String × SentimentResult)) : List (String × SentimentResult) :=
  history ++ [(text, result)]

/-- `src/components/AnalysisHistory.tsx`, the id built by
`saveToHistory`: a millisecond timestamp joined to a random base-36
suffix, `` `${Date.now()}_${Math.random().toString(36).substr(2, 9)}` ``. -/
def saveToHistoryId (now : Nat) (randSuffix : String) : String :=
  toString now ++ "_" ++ randSuffix

/-- The last `n` elements of a list, mirroring JavaScript
`array.slice(-n)` (the whole list when it is shorter than `n`). -/
def lastN (n : Nat) (l : List α) : List α := (l.reverse.take n).reverse

/-- `src/lib/store.ts`, the `PerformanceStats` record. -/
structure PerformanceStats : Type where
  totalPredictions : Nat
  averageResponseTime : Option ℚ
  responseTimes : List ℚ
deriving DecidableEq, Repr

/-- The store's initial statistics
(`{ totalPredictions: 0, averageResponseTime: null, responseTimes: [] }`). -/
def initialStats : PerformanceStats :=
  { totalPredictions := 0, averageResponseTime := none, responseTimes := [] }

/-- `src/lib/store.ts`, `updateStats`:

```js
const newResponseTimes = [...state.stats.responseTimes, responseTime].slice(-100)
const averageResponseTime = newResponseTimes.reduce((a, b) => a + b, 0) / newResponseTimes.length
return { stats: { totalPredictions: state.stats.totalPredictions + 1, averageResponseTime, responseTimes: newResponseTimes } }
```
-/
def updateStats (responseTime : ℚ) (s : PerformanceStats) : PerformanceStats :=
  let newResponseTimes := lastN 100 (s.responseTimes ++ [responseTime])
  { totalPredictions := s.totalPredictions + 1
    averageResponseTime := some (newResponseTimes.sum / (newResponseTimes.length : ℚ))
    responseTimes := newResponseTimes }

/-- `src/frontend/lib/store.ts`, the variant `stats` record
(`{ responseTime: 0, count: 0 }`). -/
structure FrontendStats : Type where
  responseTime : ℚ
  count : Nat
deriving DecidableEq, Repr

/-- The variant store's initial statistics. -/
def initialFrontendStats : FrontendStats := { responseTime := 0, count := 0 }

/-- `src/frontend/lib/store.ts`, `updateStats` (the variant store):

```js
updateStats: (responseTime) =>
  set((state) => ({ stats: {
    responseTime: (state.stats.responseTime * state.stats.count + responseTime) / (state.stats.count + 1),
    count: state.stats.count + 1 } }))
```

A cumulative moving average over every recorded latency — there is no
bounded window. -/
def frontendUpdateStats (responseTime : ℚ) (s : FrontendStats) : FrontendStats :=
  { responseTime := (s.responseTime * (s.count : ℚ) + responseTime) / ((s.count : ℚ) + 1)
    count := s.count + 1 }

/-! ## Debouncer (`src/frontend/hooks/useDebounce.ts`) -/

/-- `src/frontend/hooks/useDebounce.ts`, `useDebouncedCallback`,
modelled as a timed transition system.  `calls` is the chronological
list of `(time, argument)` invocations of the debounced wrapper;
`pending` is the currently armed timer as `(fireTime, argument)`.
Each call clears any pending timer — but a pending timer whose fire
time has already passed has fired (the callback ran), which the
returned list records.  The result is the list of `(fireTime,
argument)` callback firings. -/
def debounceRun (delay : Nat) (calls : List (Nat × α)) (pending : Option (Nat × α)) :
    List (Nat × α) :=
  match calls with
  | [] =>
      match pending with
      | none => []
      | some p => [p]
  | (t, a) :: rest =>
      match pending with
      | none => debounceRun delay rest (some (t + delay, a))
      | some (ft, b) =>
          if ft ≤ t then (ft, b) :: debounceRun delay rest (some (t + delay, a))
          else debounceRun delay rest (some (t + delay, a))

/-- Successive calls form a burst when each occurs no earlier than the
previous one and strictly within `delay` of it. -/
abbrev BurstWithin (delay : Nat) (calls : List (Nat × α)) : Prop :=
  calls.Chain' (fun p q => p.1 ≤ q.1 ∧ q.1 < p.1 + delay)

/-- Helper: once a timer is armed by the burst's first call, every
later call of the burst re-arms it before it fires, so the single
firing carries the last call's argument. -/
theorem debounceRun_burst (delay : Nat) :
    ∀ (rest : List (Nat × α)) (t : Nat) (a : α),
      BurstWithin delay ((t, a) :: rest) →
      debounceRun delay rest (some (t + delay, a)) =
        [((((t, a) :: rest).getLast (by simp)).1 + delay,
          (((t, a) :: rest).getLast (by simp)).2)]
  | [], t, a, _ => by simp [debounceRun]
  | (t2, a2) :: rest2, t, a, h => by
      have hc : t ≤ t2 ∧ t2 < t + delay := (List.chain'_cons.mp h).1
      have hh : BurstWithin delay ((t2, a2) :: rest2) := (List.chain'_cons.mp h).2
      have hlt : ¬ (t + delay ≤ t2) := by omega
      have hrec := debounceRun_burst delay rest2 t2 a2 hh
      simp only [debounceRun, hlt, if_false]
      rw [hrec]
      have hlast : ((t, a) :: (t2, a2) :: rest2).getLast (by simp) =
          ((t2, a2) :: rest2).getLast (by simp) := List.getLast_cons (by simp)
      rw [hlast]

/-! ## Auxiliary lemmas about `lastN` and the store folds -/

theorem lastN_nil (n : Nat) : lastN n ([] : List α) = [] := by
  simp [lastN]

theorem lastN_length (n : Nat) (l : List α) : (lastN n l).length = min n l.length := by
  simp [lastN]

theorem lastN_succ_append (n : Nat) (l : List α) (x : α) :
    lastN (n + 1) (l ++ [x]) = lastN n l ++ [x] := by
  simp [lastN, List.reverse_append, List.take_succ_cons]

theorem lastN_lastN (m n : Nat) (l : List α) : lastN m (lastN n l) = lastN (min m n) l := by
  simp [lastN, List.take_take]

theorem lastN_comp_append (n : Nat) (l : List α) (x : α) :
    lastN (n + 1) (lastN (n + 1) l ++ [x]) = lastN (n + 1) (l ++ [x]) := by
  rw [lastN_succ_append, lastN_succ_append, lastN_lastN]
  simp

/-- The history entry created by `addToHistory` for the call
`(timestamp, text, result)`. -/
def insertedItem (c : Nat × String × SentimentResult) : AnalysisHistoryItem :=
  { id := historyItemId c.1, text := c.2.1, result := c.2.2, timestamp := c.1 }

/-- Folding `addToHistory` over a chronological call sequence starting
from the empty store yields exactly the 100 most recent entries,
newest first. -/
theorem addToHistory_foldl (calls : List (Nat × String × SentimentResult)) :
    List.foldl (fun h c => addToHistory c.1 c.2.1 c.2.2 h) [] calls =
      ((calls.map insertedItem).reverse).take 100 := by
  induction calls using List.reverseRecOn with
  | nil => simp
  | append_singleton l x ih =>
      rw [List.foldl_append, List.foldl_cons, List.foldl_nil, ih]
      simp only [addToHistory, List.map_append, List.map_cons, List.map_nil,
        List.reverse_append, List.reverse_cons, List.reverse_nil, List.nil_append,
        List.singleton_append, List.take_succ_cons, List.take_take]
      rfl

/-- Folding the frontend variant's `addToHistory` appends every entry
at the tail: the store is the initial store followed by all calls in
order, with no eviction. -/
theorem frontendAddToHistory_foldl (calls : List (String × SentimentResult))
    (init : List (String × SentimentResult)) :
    List.foldl (fun h c => frontendAddToHistory c.1 c.2 h) init calls = init ++ calls := by
  induction calls generalizing init with
  | nil => simp
  | cons c rest ih =>
      rw [List.foldl_cons, ih]
      simp [frontendAddToHistory]

/-- Folding `updateStats` over the latency sequence `ls` starting from
the pristine statistics: the counter equals the number of calls, the
window holds the last 100 latencies, and (when at least one call
happened) the average is the arithmetic mean of the window. -/
theorem updateStats_foldl (ls : List ℚ) :
    (List.foldl (fun s rt => updateStats rt s) initialStats ls).totalPredictions
        = ls.length ∧
    (List.foldl (fun s rt => updateStats rt s) initialStats ls).responseTimes
        = lastN 100 ls ∧
    (ls ≠ [] →
      (List.foldl (fun s rt => updateStats rt s) initialStats ls).averageResponseTime
        = some ((lastN 100 ls).sum / ((lastN 100 ls).length : ℚ))) := by
  induction ls using List.reverseRecOn with
  | nil => exact ⟨rfl, by simp [initialStats, lastN_nil], fun h => absurd rfl h⟩
  | append_singleton l x ih =>
      obtain ⟨ih1, ih2, _⟩ := ih
      rw [List.foldl_append, List.foldl_cons, List.foldl_nil]
      generalize hS : List.foldl (fun s rt => updateStats rt s) initialStats l = S at ih1 ih2
      have hcomp : lastN 100 (lastN 100 l ++ [x]) = lastN 100 (l ++ [x]) :=
        lastN_comp_append 99 l x
      refine ⟨?_, ?_, fun _ => ?_⟩
      · simp [updateStats, ih1]
      · simp only [updateStats]
        rw [ih2, hcomp]
      · simp only [updateStats]
        rw [ih2, hcomp]

/-- Folding the frontend variant's `updateStats` computes the
cumulative mean of all recorded latencies (no window). -/
theorem frontendUpdateStats_foldl (ls : List ℚ) :
    List.foldl (fun s rt => frontendUpdateStats rt s) initialFrontendStats ls =
      { responseTime := ls.sum / (ls.length : ℚ), count := ls.length } := by
  induction ls using List.reverseRecOn with
  | nil => simp [initialFrontendStats]
  | append_singleton l x ih =>
      rw [List.foldl_append, List.foldl_cons, List.foldl_nil, ih]
      simp only [frontendUpdateStats, List.sum_append, List.length_append,
        List.sum_cons, List.sum_nil, List.length_cons, List.length_nil]
      rcases eq_or_ne l [] with hl | hl
      · subst hl; simp
      · have hlen : (l.length : ℚ) ≠ 0 := by
          simpa using List.length_eq_zero.not.mpr hl
        rw [div_mul_cancel₀ _ hlen]
        congr 1
        push_cast
        ring

/-- A concrete prediction result used in counterexamples and witnesses. -/
def sampleResult : SentimentResult := { label := "POSITIVE", score := 1 }

/-! ## Claim C2 — debounce coalescing -/

/-- C2: for every burst of debounced-schedule calls in which each call
occurs within the configured interval `delay` of the previous one, the
wrapped callback fires exactly once after the burst quiesces (at the
last call's time plus `delay`), with the argument supplied by the last
call of the burst (`useDebouncedCallback`,
`src/frontend/hooks/useDebounce.ts`). -/
theorem debounce_burst_fires_once_with_last (delay : Nat) (calls : List (Nat × String))
    (hne : calls ≠ []) (hburst : BurstWithin delay calls) :
    debounceRun delay calls none =
      [((calls.getLast hne).1 + delay, (calls.getLast hne).2)] := by
  cases calls with
  | nil => exact absurd rfl hne
  | cons c rest =>
      obtain ⟨t, a⟩ := c
      simp only [debounceRun]
      exact debounceRun_burst delay rest t a hburst

/-- Witness for C2: typing "I love this" and then "I love this
product" 100 ms later with a 500 ms debounce fires the callback once,
at t = 600, with the last text. -/
theorem debounce_burst_fires_once_with_last_witness :
    (([(0, "I love this"), (100, "I love this product")] : List (Nat × String)) ≠ []) ∧
    BurstWithin 500 ([(0, "I love this"), (100, "I love this product")] : List (Nat × String)) ∧
    debounceRun 500 ([(0, "I love this"), (100, "I love this product")] : List (Nat × String)) none =
      [(600, "I love this product")] :=
  ⟨by decide, by simp,
    (debounce_burst_fires_once_with_last 500
      [(0, "I love this"), (100, "I love this product")] (by decide) (by simp)).trans
      (by decide)⟩

/-! ## Claim C3 — history cap and recency -/

/-- Counterexample for C3: the variant store
(`src/frontend/lib/store.ts`, `addToHistory`) keeps no cap and appends
at the tail: 101 sequential insertions leave 101 entries, and after
two insertions the newest entry is last, not first. -/
theorem frontendAddToHistory_uncapped :
    (List.foldl (fun h c => frontendAddToHistory c.1 c.2 h) []
        (List.replicate 101 ("text", sampleResult))).length = 101 ∧
    ¬ ((List.foldl (fun h c => frontendAddToHistory c.1 c.2 h) []
        (List.replicate 101 ("text", sampleResult))).length ≤ 100) ∧
    List.foldl (fun h c => frontendAddToHistory c.1 c.2 h) []
        [("first", sampleResult), ("second", sampleResult)] =
      [("first", sampleResult), ("second", sampleResult)] := by
  rw [frontendAddToHistory_foldl, frontendAddToHistory_foldl]
  simp

/-- C3 (amended): the main store (`src/lib/store.ts`, `addToHistory`)
does satisfy the claim — from any starting state an insertion prepends
the new entry at the head, keeps at most 100 entries by evicting the
tail, and any sequence of insertions from the empty store leaves
exactly the (up to) 100 most recently inserted entries, newest first.
The `src/frontend/lib/store.ts` variant violates the claim (see the
counterexample). -/
theorem addToHistory_cap_prepend_recent :
    (∀ (now : Nat) (text : String) (r : SentimentResult) (h : List AnalysisHistoryItem),
      (addToHistory now text r h).length ≤ 100 ∧
      addToHistory now text r h =
        insertedItem (now, text, r) :: h.take 99) ∧
    (∀ calls : List (Nat × String × SentimentResult),
      List.foldl (fun h c => addToHistory c.1 c.2.1 c.2.2 h) [] calls =
        ((calls.map insertedItem).reverse).take 100) := by
  constructor
  · intro now text r h
    constructor
    · simp only [addToHistory, List.length_cons]
      have := List.length_take_le 99 h
      omega
    · rfl
  · exact addToHistory_foldl

/-! ## Claim C4 — statistics counter and windowed mean -/

/-- Counterexample for C4: the variant store
(`src/frontend/lib/store.ts`, `updateStats`) keeps a cumulative mean
over all recorded latencies, not a 100-element window: after the 101
latencies `101, 0, 0, …, 0` its average is 1, while the arithmetic
mean of the last min(101, 100) = 100 latencies is 0. -/
theorem frontendUpdateStats_not_windowed :
    (List.foldl (fun s rt => frontendUpdateStats rt s) initialFrontendStats
        (101 :: List.replicate 100 (0 : ℚ))).responseTime = 1 ∧
    (lastN 100 (101 :: List.replicate 100 (0 : ℚ))).sum /
        ((lastN 100 (101 :: List.replicate 100 (0 : ℚ))).length : ℚ) = 0 ∧
    (1 : ℚ) ≠ 0 := by
  have hlast : lastN 100 (101 :: List.replicate 100 (0 : ℚ)) = List.replicate 100 (0 : ℚ) := by
    decide
  refine ⟨?_, ?_, by norm_num⟩
  · rw [frontendUpdateStats_foldl]
    norm_num [List.sum_replicate]
  · rw [hlast]
    simp [List.sum_replicate]

/-- C4 (amended): the main store (`src/lib/store.ts`, `updateStats`)
does satisfy the claim — starting from empty statistics, after
recording latencies `ls`, `totalPredictions` equals the number of
calls, the retained window is the last 100 latencies (of size
min(100, k)), and the average is the arithmetic mean of that window.
The `src/frontend/lib/store.ts` variant violates the claim (see the
counterexample). -/
theorem updateStats_count_and_window_mean (ls : List ℚ) :
    (List.foldl (fun s rt => updateStats rt s) initialStats ls).totalPredictions
        = ls.length ∧
    (List.foldl (fun s rt => updateStats rt s) initialStats ls).responseTimes
        = lastN 100 ls ∧
    (lastN 100 ls).length = min 100 ls.length ∧
    (ls ≠ [] →
      (List.foldl (fun s rt => updateStats rt s) initialStats ls).averageResponseTime
        = some ((lastN 100 ls).sum / ((lastN 100 ls).length : ℚ))) := by
  obtain ⟨h1, h2, h3⟩ := updateStats_foldl ls
  exact ⟨h1, h2, lastN_length 100 ls, h3⟩

/-- Witness for C4 at the latency sequence `[10, 20, 30]`. -/
theorem updateStats_count_and_window_mean_witness :
    (([10, 20, 30] : List ℚ) ≠ []) ∧
    (List.foldl (fun s rt => updateStats rt s) initialStats
        ([10, 20, 30] : List ℚ)).averageResponseTime
      = some ((lastN 100 ([10, 20, 30] : List ℚ)).sum /
          ((lastN 100 ([10, 20, 30] : List ℚ)).length : ℚ)) :=
  ⟨by decide, (updateStats_count_and_window_mean [10, 20, 30]).2.2.2 (by decide)⟩

/-! ## Claim C10 — history entry id uniqueness -/

/-- Counterexample for C10: `src/lib/store.ts` derives the id from the
timestamp alone (`Date.now().toString()`), with no random suffix —
two distinct insertions within the same millisecond receive the same
id. -/
theorem addToHistory_same_millisecond_id_collision :
    (addToHistory 1700000000000 "second" sampleResult
        (addToHistory 1700000000000 "first" sampleResult [])).map
        (fun e => e.id) = ["1700000000000", "1700000000000"] ∧
    ("first" : String) ≠ "second" := by
  constructor
  · rfl
  · decide

/-- C10 (amended): only `saveToHistory` in
`src/components/AnalysisHistory.tsx` combines the timestamp with a
random suffix; there, two insertions in the same millisecond receive
distinct ids whenever their random suffixes differ.  The store's
`addToHistory` (`src/lib/store.ts`) uses the bare timestamp, so
same-millisecond insertions collide (see the counterexample). -/
theorem saveToHistoryId_distinct_random_suffix (now : Nat) (r1 r2 : String)
    (h : r1 ≠ r2) : saveToHistoryId now r1 ≠ saveToHistoryId now r2 := by
  intro he
  apply h
  have hd := congrArg String.data he
  simp only [saveToHistoryId, String.data_append] at hd
  exact String.ext (List.append_cancel_left hd)

/-- Witness for C10 (amended) at two concrete distinct suffixes. -/
theorem saveToHistoryId_distinct_random_suffix_witness :
    (("4fzyo82mv" : String) ≠ "k9x2m1q7p") ∧
    saveToHistoryId 1700000000000 "4fzyo82mv" ≠ saveToHistoryId 1700000000000 "k9x2m1q7p" :=
  ⟨by decide, saveToHistoryId_distinct_random_suffix 1700000000000 _ _ (by decide)⟩

/-! ## Claim C8 — totality of response normalization -/

/-- The flat field read `result.k` on a non-null payload (an object
yields its field or `undefined`; any other non-null value yields
`undefined`). -/
def flatProp (result : Json) (k : String) : JsVal :=
  match result with
  | .obj fields => jsLookup fields k
  | _ => none

theorem jsOr_of_falsy {a b : JsVal} (h : jsTruthy a = false) : jsOr a b = b := by
  simp [jsOr, h]

theorem propAccess_of_nonnull (result : Json) (hnn : result ≠ Json.null) (k : String) :
    propAccess (some result) k = .ok (flatProp result k) := by
  cases result with
  | null => exact absurd rfl hnn
  | bool b => rfl
  | num q => rfl
  | str s => rfl
  | arr l => rfl
  | obj fields => rfl

/-- Counterexample for C8: normalization is not total — on the JSON
payload `null` (a legal response body), the first property access
`result.label` throws a `TypeError`; the route's `catch` then answers
with a 500 error instead of a defaulted result.  The batch transform
throws on the same payload. -/
theorem normalization_throws_on_null_payload :
    transformedResult "hello" Json.null = .error .typeError ∧
    transformedResults [Json.str "hello"] Json.null = .error .typeError :=
  ⟨rfl, rfl⟩

/-- C8 (amended): for every payload other than JSON `null`,
normalization succeeds, and whenever the label (resp. score) is
missing-or-falsy in both the flat and the nested position, it defaults
to `"UNKNOWN"` (resp. `0`); the single-predict and batch-element
transforms behave identically.  The one exception the counterexample
forces is the `null` payload, on which the first property access
throws. -/
theorem normalization_total_and_defaults :
    (∀ (text : String) (result : Json), result ≠ Json.null →
      ∃ r : TransResult, transformedResult text result = .ok r ∧
        (jsTruthy (flatProp result "label") = false →
          jsTruthy (optChain (flatProp result "sentiment") "label") = false →
          r.sentimentLabel = some (.str "UNKNOWN")) ∧
        (jsTruthy (flatProp result "score") = false →
          jsTruthy (optChain (flatProp result "sentiment") "score") = false →
          r.sentimentScore = some (.num 0))) ∧
    (∀ (texts : List Json) (idx : Nat) (r : Json), r ≠ Json.null →
      ∃ e : TransBatchElem, transformBatchElem texts idx r = .ok e ∧
        (jsTruthy (flatProp r "label") = false →
          jsTruthy (optChain (flatProp r "sentiment") "label") = false →
          e.sentimentLabel = some (.str "UNKNOWN")) ∧
        (jsTruthy (flatProp r "score") = false →
          jsTruthy (optChain (flatProp r "sentiment") "score") = false →
          e.sentimentScore = some (.num 0))) := by
  constructor
  · intro text result hnn
    refine
      ⟨{ text := text
         sentimentLabel := jsOr (flatProp result "label")
           (jsOr (optChain (flatProp result "sentiment") "label") (some (.str "UNKNOWN")))
         sentimentScore := jsOr (flatProp result "score")
           (jsOr (optChain (flatProp result "sentiment") "score") (some (.num 0)))
         confidence := jsOr (flatProp result "confidence")
           (jsOr (flatProp result "score") (some (.num 0)))
         processing_time := jsOr (flatProp result "processing_time") (some (.num 0))
         scores := jsOr (flatProp result "scores") (some (.obj [])) }, ?_, ?_, ?_⟩
    · cases result with
      | null => exact absurd rfl hnn
      | bool b => rfl
      | num q => rfl
      | str s => rfl
      | arr l => rfl
      | obj fields => rfl
    · intro h1 h2
      simp only
      rw [jsOr_of_falsy h1, jsOr_of_falsy h2]
    · intro h1 h2
      simp only
      rw [jsOr_of_falsy h1, jsOr_of_falsy h2]
  · intro texts idx r hnn
    refine
      ⟨{ text := texts.get? idx
         sentimentLabel := jsOr (flatProp r "label")
           (jsOr (optChain (flatProp r "sentiment") "label") (some (.str "UNKNOWN")))
         sentimentScore := jsOr (flatProp r "score")
           (jsOr (optChain (flatProp r "sentiment") "score") (some (.num 0)))
         confidence := jsOr (flatProp r "confidence")
           (jsOr (flatProp r "score") (some (.num 0)))
         processing_time := jsOr (flatProp r "processing_time") (some (.num 0))
         scores := jsOr (flatProp r "scores") (some (.obj [])) }, ?_, ?_, ?_⟩
    · cases r with
      | null => exact absurd rfl hnn
      | bool b => rfl
      | num q => rfl
      | str s => rfl
      | arr l => rfl
      | obj fields => rfl
    · intro h1 h2
      simp only
      rw [jsOr_of_falsy h1, jsOr_of_falsy h2]
    · intro h1 h2
      simp only
      rw [jsOr_of_falsy h1, jsOr_of_falsy h2]

/-- Witness for C8 (amended) at a payload whose label and score are
missing in both the flat and nested positions. -/
theorem normalization_total_and_defaults_witness :
    (Json.obj [("foo", Json.num 5)] ≠ Json.null) ∧
    (∃ r : TransResult,
      transformedResult "hi" (Json.obj [("foo", Json.num 5)]) = .ok r ∧
        (jsTruthy (flatProp (Json.obj [("foo", Json.num 5)]) "label") = false →
          jsTruthy (optChain (flatProp (Json.obj [("foo", Json.num 5)]) "sentiment") "label") = false →
          r.sentimentLabel = some (.str "UNKNOWN")) ∧
        (jsTruthy (flatProp (Json.obj [("foo", Json.num 5)]) "score") = false →
          jsTruthy (optChain (flatProp (Json.obj [("foo", Json.num 5)]) "sentiment") "score") = false →
          r.sentimentScore = some (.num 0))) :=
  ⟨by decide, normalization_total_and_defaults.1 "hi" (Json.obj [("foo", Json.num 5)]) (by decide)⟩

/-! ## Claim C6 — batch cap enforced before any backend call -/

/-- An HTTP response from the Python backend as seen by the route
(`fetch` result): `ok` is `response.ok` (2xx), `status` the code,
`body` the parsed JSON. -/
structure BackendResponse : Type where
  ok : Bool
  status : Nat
  body : Json

/-- `part_003`, the `/api/predict/batch` route handler.  The input is
the `texts` field destructured from the request body; `backend` is the
`fetch` to the Python prediction service, returning `.error ()` for a
network failure.  The returned flag records whether that fetch was
performed.

```js
if (!texts || !Array.isArray(texts)) return 400 "Texts array is required"
if (texts.length === 0) return 400 "At least one text is required"
if (texts.length > 100) return 400 "Maximum 100 texts allowed"
const backendResponse = await fetch(...)
if (!backendResponse.ok) throw new Error(...)      // → catch → 500
const result = await backendResponse.json()
return NextResponse.json(transformedResults)       // transform throw → catch → 500
```
-/
inductive BatchRouteOut : Type where
  | errorOut (status : Nat) (message : String)
  | okOut (body : TransBatchOut)

def batchPredictPOST (texts : JsVal) (backend : List Json → Except Unit BackendResponse) :
    BatchRouteOut × Bool :=
  match texts with
  | some (.arr l) =>
      if l.length = 0 then (.errorOut 400 "At least one text is required", false)
      else if l.length > 100 then (.errorOut 400 "Maximum 100 texts allowed", false)
      else
        match backend l with
        | .error _ => (.errorOut 500 "Internal server error", true)
        | .ok resp =>
            if resp.ok = false then (.errorOut 500 "Backend error", true)
            else
              match transformedResults l resp.body with
              | .ok out => (.okOut out, true)
              | .error _ => (.errorOut 500 "Internal server error", true)
  | _ => (.errorOut 400 "Texts array is required", false)

/-- C6: a batch request whose `texts` array exceeds the cap of 100 is
rejected with the validation error, and the backend fetch is never
performed — whatever the backend would have answered. -/
theorem batch_cap_fails_fast (l : List Json)
    (backend : List Json → Except Unit BackendResponse) (hgt : l.length > 100) :
    batchPredictPOST (some (.arr l)) backend =
      (.errorOut 400 "Maximum 100 texts allowed", false) := by
  have h0 : ¬ (l.length = 0) := by omega
  simp [batchPredictPOST, h0, hgt]

/-- Witness for C6 at 101 texts with the cap of 100. -/
theorem batch_cap_fails_fast_witness :
    (List.replicate 101 (Json.str "x")).length > 100 ∧
    batchPredictPOST (some (.arr (List.replicate 101 (Json.str "x"))))
        (fun _ => Except.error ()) =
      (.errorOut 400 "Maximum 100 texts allowed", false) :=
  ⟨by simp, batch_cap_fails_fast (List.replicate 101 (Json.str "x"))
    (fun _ => Except.error ()) (by simp)⟩

/-! ## Claim C5 — no client-side fallback route -/

/-- An HTTP response as delivered to an axios/fetch client. -/
structure HttpResponse : Type where
  status : Nat
  body : Json

/-- `src/frontend/lib/api.ts`: the `ApiError` produced by the axios
response interceptor,
`{ detail: error.response?.data?.detail || error.message || "An error occurred", status: error.response?.status }`. -/
structure ApiError : Type where
  detail : String
  status : Option Nat
deriving DecidableEq, Repr

/-- The `detail` string the interceptor assembles from a rejected
response: the body's `detail` field when it is a truthy value, else
axios's own message for a failed status. -/
def axiosErrorDetail (body : Json) (status : Nat) : String :=
  match jsOr (optChain (some body) "detail")
      (some (.str ("Request failed with status code " ++ toString status))) with
  | some (.str s) => s
  | _ => "An error occurred"

/-- `src/frontend/lib/api.ts`, `restApi.predict`:

```js
predict: async (request) => {
  const response = await apiClient.post("/api/predict", request)
  return response.data
}
```

One request to the single configured route `/api/predict`; axios
resolves 2xx responses and rejects anything else, which the
interceptor maps to an `ApiError`.  The second component of the result
is the list of paths requested during the call. -/
def restApiPredict (routes : String → HttpResponse) :
    Except ApiError Json × List String :=
  let resp := routes "/api/predict"
  if 200 ≤ resp.status ∧ resp.status < 300 then
    (.ok resp.body, ["/api/predict"])
  else
    (.error { detail := axiosErrorDetail resp.body resp.status, status := some resp.status },
      ["/api/predict"])

/-- `src/lib/api.ts`, `RestApi.predict` (the other client variant):
one request to the single configured route `/predict`; a non-2xx axios
rejection propagates to the caller. -/
def restApiPredictBare (routes : String → HttpResponse) :
    Except ApiError Json × List String :=
  let resp := routes "/predict"
  if 200 ≤ resp.status ∧ resp.status < 300 then
    (.ok resp.body, ["/predict"])
  else
    (.error { detail := axiosErrorDetail resp.body resp.status, status := some resp.status },
      ["/predict"])

/-- A transport in which the primary (prefixed) route answers 404 and
the documented secondary route answers 200 with a valid body — the
exact situation of the claim. -/
def fallbackAvailableRoutes : String → HttpResponse := fun path =>
  if path = "/predict" then
    { status := 200, body := .obj [("label", .str "POSITIVE"), ("score", .num 1)] }
  else
    { status := 404, body := .obj [("detail", .str "Not Found")] }

/-- Counterexample for C5: with the primary route failing with 404 and
the secondary route available with a valid 200 body, `restApi.predict`
surfaces the 404 error and performs exactly one request — to the
primary path only; no retry against the secondary path exists. -/
theorem restApiPredict_no_fallback :
    (fallbackAvailableRoutes "/api/predict").status = 404 ∧
    (fallbackAvailableRoutes "/predict").status = 200 ∧
    (restApiPredict fallbackAvailableRoutes).2 = ["/api/predict"] ∧
    (restApiPredict fallbackAvailableRoutes).1 =
      .error { detail := "Not Found", status := some 404 } := by
  refine ⟨rfl, rfl, rfl, ?_⟩
  decide

/-- C5 (amended): each client performs exactly one request per
`predict` call, to its sole configured route (`/api/predict` for the
`src/frontend/lib/api.ts` client, `/predict` for the `src/lib/api.ts`
client), and surfaces a client/server error status as an `ApiError`
without retrying any other path. -/
theorem restApiPredict_single_route (routes : String → HttpResponse) :
    (restApiPredict routes).2 = ["/api/predict"] ∧
    (restApiPredictBare routes).2 = ["/predict"] ∧
    (¬ (200 ≤ (routes "/api/predict").status ∧ (routes "/api/predict").status < 300) →
      (restApiPredict routes).1 =
        .error { detail := axiosErrorDetail (routes "/api/predict").body
                    (routes "/api/predict").status,
                 status := some (routes "/api/predict").status }) := by
  refine ⟨?_, ?_, ?_⟩
  · simp only [restApiPredict]
    split <;> rfl
  · simp only [restApiPredictBare]
    split <;> rfl
  · intro hbad
    simp only [restApiPredict]
    rw [if_neg hbad]

/-- Witness for C5 (amended) at the 404-primary transport. -/
theorem restApiPredict_single_route_witness :
    (¬ (200 ≤ (fallbackAvailableRoutes "/api/predict").status ∧
        (fallbackAvailableRoutes "/api/predict").status < 300)) ∧
    (restApiPredict fallbackAvailableRoutes).1 =
      .error { detail := axiosErrorDetail (fallbackAvailableRoutes "/api/predict").body
                  (fallbackAvailableRoutes "/api/predict").status,
               status := some (fallbackAvailableRoutes "/api/predict").status } :=
  ⟨by decide, (restApiPredict_single_route fallbackAvailableRoutes).2.2 (by decide)⟩

/-! ## Claim C7 — GraphQL errors array surfaces as failure -/

/-- One entry of a GraphQL `errors` array. -/
structure GqlError : Type where
  message : String
deriving DecidableEq, Repr

/-- A GraphQL response envelope with HTTP status 200: `data` is the
payload object or JSON `null`; `errors` is absent (`none`) or the
(possibly empty) array. -/
structure GqlEnvelope (α : Type) : Type where
  data : Option α
  errors : Option (List GqlError)

/-- How a GraphQL operation terminates in the client: a thrown
`new Error(errors[0].message)`, a runtime `TypeError` (reading
`errors[0].message` of an empty array, or `data!.field` of `null`),
or success. -/
inductive GqlFailure : Type where
  | thrown (message : String)
  | typeError
deriving DecidableEq, Repr

/-- The `data` payload of the `Predict` query. -/
structure GqlPredictData : Type where
  predict : SentimentResult

/-- The `data` payload of the `BatchPredict` query. -/
structure GqlBatchPredictData : Type where
  batchPredict : List SentimentResult

/-- The service metadata returned by the `ModelInfo` query. -/
structure GqlModelInfo : Type where
  name : String
  framework : String
  quantized : Bool
  device : String
deriving DecidableEq, Repr

/-- The `data` payload of the `ModelInfo` query. -/
structure GqlModelInfoData : Type where
  modelInfo : GqlModelInfo

/-- `src/frontend/lib/api.ts`, `graphqlApi.predict` (after the 200
response resolves):

```js
if (response.data.errors) { throw new Error(response.data.errors[0].message) }
return response.data.data!.predict
```

A present `errors` array is truthy even when empty; on an empty array
`errors[0].message` itself throws a `TypeError`. -/
def graphqlPredict (env : GqlEnvelope GqlPredictData) : Except GqlFailure SentimentResult :=
  match env.errors with
  | some (e :: _) => .error (.thrown e.message)
  | some [] => .error .typeError
  | none =>
      match env.data with
      | some d => .ok d.predict
      | none => .error .typeError

/-- `src/frontend/lib/api.ts`, `graphqlApi.predictBatch` — the same
envelope handling for the `BatchPredict` query. -/
def graphqlPredictBatch (env : GqlEnvelope GqlBatchPredictData) :
    Except GqlFailure (List SentimentResult) :=
  match env.errors with
  | some (e :: _) => .error (.thrown e.message)
  | some [] => .error .typeError
  | none =>
      match env.data with
      | some d => .ok d.batchPredict
      | none => .error .typeError

/-- `src/frontend/lib/api.ts`, `graphqlApi.getModelInfo` — the same
envelope handling for the `ModelInfo` query. -/
def graphqlGetModelInfo (env : GqlEnvelope GqlModelInfoData) :
    Except GqlFailure GqlModelInfo :=
  match env.errors with
  | some (e :: _) => .error (.thrown e.message)
  | some [] => .error .typeError
  | none =>
      match env.data with
      | some d => .ok d.modelInfo
      | none => .error .typeError

/-- C7: whenever the envelope of a 200 response carries a non-empty
`errors` array, each of the three GraphQL operations surfaces a
failure carrying the first error's message — never a success. -/
theorem graphql_nonempty_errors_fail :
    (∀ (env : GqlEnvelope GqlPredictData) (e : GqlError) (rest : List GqlError),
      env.errors = some (e :: rest) → graphqlPredict env = .error (.thrown e.message)) ∧
    (∀ (env : GqlEnvelope GqlBatchPredictData) (e : GqlError) (rest : List GqlError),
      env.errors = some (e :: rest) → graphqlPredictBatch env = .error (.thrown e.message)) ∧
    (∀ (env : GqlEnvelope GqlModelInfoData) (e : GqlError) (rest : List GqlError),
      env.errors = some (e :: rest) → graphqlGetModelInfo env = .error (.thrown e.message)) := by
  refine ⟨?_, ?_, ?_⟩
  · intro env e rest herr
    unfold graphqlPredict
    rw [herr]
  · intro env e rest herr
    unfold graphqlPredictBatch
    rw [herr]
  · intro env e rest herr
    unfold graphqlGetModelInfo
    rw [herr]

/-- Witness for C7 at the envelope
`{ data: null, errors: [{message: "boom"}] }` for all three
operations. -/
theorem graphql_nonempty_errors_fail_witness :
    (({ data := none, errors := some [{ message := "boom" }] } :
        GqlEnvelope GqlPredictData).errors = some [{ message := "boom" }]) ∧
    graphqlPredict { data := none, errors := some [{ message := "boom" }] } =
      .error (.thrown "boom") ∧
    graphqlPredictBatch { data := none, errors := some [{ message := "boom" }] } =
      .error (.thrown "boom") ∧
    graphqlGetModelInfo { data := none, errors := some [{ message := "boom" }] } =
      .error (.thrown "boom") :=
  ⟨rfl,
    graphql_nonempty_errors_fail.1 { data := none, errors := some [{ message := "boom" }] }
      { message := "boom" } [] rfl,
    graphql_nonempty_errors_fail.2.1 { data := none, errors := some [{ message := "boom" }] }
      { message := "boom" } [] rfl,
    graphql_nonempty_errors_fail.2.2 { data := none, errors := some [{ message := "boom" }] }
      { message := "boom" } [] rfl⟩

/-! ## Claims C1 and C9 — the live-prediction coordination layer
(`part_013`, `useSentimentPrediction`) -/

/-- The transport the hook uses, selected by the store's `useGraphQL`
flag. -/
inductive TransportMode : Type where
  | rest
  | graphql
deriving DecidableEq, Repr

/-- The state of the live-prediction path of `useSentimentPrediction`:
`nextCtrl` numbers the `AbortController`s created so far,
`currentCtrl` is `abortControllerRef.current`, `aborted` records the
controllers whose `abort()` was called, `liveResult` is the published
live result. -/
structure LiveCoordState : Type where
  nextCtrl : Nat
  currentCtrl : Option Nat
  aborted : List Nat
  liveResult : Option SentimentResult
deriving DecidableEq, Repr

/-- The hook's initial live state: no controller yet, no live result. -/
def initialLiveState : LiveCoordState :=
  { nextCtrl := 0, currentCtrl := none, aborted := [], liveResult := none }

/-- An event of the live pipeline, interleaved on the single-threaded
event loop: a debounced trigger firing (the body of
`debouncedLivePredict` up to its `await`), or the settlement of the
request issued under controller `ctrl`. -/
inductive LiveEvent : Type where
  | fire (text : String)
  | response (ctrl : Nat) (r : SentimentResult)
  | failureResponse (ctrl : Nat)
deriving DecidableEq, Repr

/-- The JavaScript guard `!text.trim()`: true exactly when the text
contains only whitespace (trimming leaves the empty, falsy string). -/
def isBlank (text : String) : Bool := text.data.all (fun c => c.isWhitespace)

/-- `part_013`, `debouncedLivePredict`, as a step function over
`LiveCoordState`:

* `fire text` — the debounced callback body runs: with blank text or
  live typing disabled it clears the live result and returns (without
  touching the controller); otherwise it calls
  `abortControllerRef.current.abort()` on the previous controller and
  installs a fresh one, then issues the request under that controller.
* `response ctrl r` — the request issued under `ctrl` resolves.  In
  GraphQL mode the abort signal was attached through the Apollo
  context, so a request whose controller was aborted rejects with
  `AbortError` instead (caught and dropped); in REST mode
  `restApi.predict({ text })` is called *without* the signal, so the
  response always settles and `setLiveResult(result)` runs even when
  the controller was aborted.
* `failureResponse ctrl` — the request rejects; the `catch` only logs,
  leaving the state unchanged. -/
def liveStep (mode : TransportMode) (enableLiveTyping : Bool)
    (s : LiveCoordState) : LiveEvent → LiveCoordState
  | .fire text =>
      if isBlank text ∨ enableLiveTyping = false then
        { s with liveResult := none }
      else
        { s with
          nextCtrl := s.nextCtrl + 1
          currentCtrl := some s.nextCtrl
          aborted :=
            match s.currentCtrl with
            | some c => c :: s.aborted
            | none => s.aborted }
  | .response ctrl r =>
      match mode with
      | .rest => { s with liveResult := some r }
      | .graphql => if s.aborted.contains ctrl then s else { s with liveResult := some r }
  | .failureResponse _ => s

/-- Running the live pipeline over a chronological event list. -/
def liveRun (mode : TransportMode) (enableLiveTyping : Bool)
    (events : List LiveEvent) : LiveCoordState :=
  events.foldl (liveStep mode enableLiveTyping) initialLiveState

/-- The (stale) result of the first live trigger in the C1 scenario. -/
def staleResult : SentimentResult := { label := "NEGATIVE", score := 55 }

/-- The (fresh) result of the last live trigger in the C1 scenario. -/
def freshResult : SentimentResult := { label := "POSITIVE", score := 97 }

/-- C1 evaluated at the failing input: in REST mode, triggers for
"good" (controller 0) and then "good product" (controller 1) both fire
before either response returns; the newer response arrives first, the
older one last.  Because `restApi.predict` is called without the abort
signal, the superseded response still publishes, so the final live
result is the *stale* result of the first trigger, not the last
trigger's — the staleness invariant is violated.  In GraphQL mode the
same schedule keeps the fresh result (the aborted request rejects and
is dropped), confirming the missing signal as the defect. -/
theorem live_rest_publishes_stale_result :
    (liveRun .rest true
        [.fire "good", .fire "good product",
         .response 1 freshResult, .response 0 staleResult]).liveResult
      = some staleResult ∧
    staleResult ≠ freshResult ∧
    (liveRun .graphql true
        [.fire "good", .fire "good product",
         .response 1 freshResult, .response 0 staleResult]).liveResult
      = some freshResult := by
  refine ⟨?_, by decide, ?_⟩ <;> decide

/-- The slice of the zustand store (`src/lib/store.ts`) that the hook
mutates, together with the hook-local live result. -/
structure HookStoreState : Type where
  history : List AnalysisHistoryItem
  stats : PerformanceStats
  currentResult : Option SentimentResult
  error : Option String
  liveResult : Option SentimentResult
deriving DecidableEq, Repr

/-- How one live probe settles: the blank-text/disabled early return,
a successful response, or a failure (of any kind). -/
inductive LiveOutcome : Type where
  | emptyOrDisabled
  | success (r : SentimentResult)
  | failure
deriving DecidableEq, Repr

/-- `part_013`, `debouncedLivePredict`, restricted to its store
effects: the early return and the success path only call
`setLiveResult`; the `catch` only logs.  Neither `updateStats` nor
`addToHistory` appears in the function. -/
def debouncedLivePredictSettle (s : HookStoreState) (o : LiveOutcome) : HookStoreState :=
  match o with
  | .emptyOrDisabled => { s with liveResult := none }
  | .success r => { s with liveResult := some r }
  | .failure => s

/-- `part_013`, the explicit-submission mutation on success: the
mutation function calls `updateStats(responseTime)` after the response
arrives, and `onSuccess` then runs `setCurrentResult(result)`,
`addToHistory(text, result)` and `setError(null)`. -/
def explicitPredictSuccess (s : HookStoreState) (now : Nat) (latency : ℚ)
    (text : String) (r : SentimentResult) : HookStoreState :=
  { s with
    stats := updateStats latency s.stats
    currentResult := some r
    history := addToHistory now text r s.history
    error := none }

/-- `part_013`, the explicit-submission mutation on failure: the
mutation function threw before reaching `updateStats`, and `onError`
only runs `setError(error.detail)`. -/
def explicitPredictFailure (s : HookStoreState) (detail : String) : HookStoreState :=
  { s with error := some detail }

/-- C9: a live probe, however it settles, leaves the history and the
performance statistics unchanged (it only writes the live-result
slot), while the explicit-submission path is the one that invokes
`updateStats` and `addToHistory` on success — and even its failure
path leaves history and statistics untouched. -/
theorem live_probe_leaves_history_and_stats :
    (∀ (s : HookStoreState) (o : LiveOutcome),
      (debouncedLivePredictSettle s o).history = s.history ∧
      (debouncedLivePredictSettle s o).stats = s.stats) ∧
    (∀ (s : HookStoreState) (now : Nat) (latency : ℚ) (text : String) (r : SentimentResult),
      (explicitPredictSuccess s now latency text r).stats = updateStats latency s.stats ∧
      (explicitPredictSuccess s now latency text r).history = addToHistory now text r s.history) ∧
    (∀ (s : HookStoreState) (detail : String),
      (explicitPredictFailure s detail).history = s.history ∧
      (explicitPredictFailure s detail).stats = s.stats) := by
  refine ⟨fun s o => ?_, fun s now latency text r => ⟨rfl, rfl⟩, fun s detail => ⟨rfl, rfl⟩⟩
  cases o with
  | emptyOrDisabled => exact ⟨rfl, rfl⟩
  | success r => exact ⟨rfl, rfl⟩
  | failure => exact ⟨rfl, rfl⟩
